import Mathlib

/-!
# Palette sandbox: shared light records and the textured-quad shader pair

Two source files are embedded here.

* `MTLQuest/Exercise/QuestShading/MTLSharedTypes.h` declares four plain records
  that the host fills and the shader reads.  The declarations are embedded as
  data (field name and field type, in declaration order).  The host side lays
  them out by the C struct layout rule over the host type sizes; the device
  side first resolves the member types to shading language types and then
  lays them out with the shading language type table by a record builder of
  its own.
* `ShaderExam/Include/Quad.h` holds `Global::quadVertex` and
  `Global::quadFragment`.  They are embedded as functions over an arbitrary
  scalar type, so nothing proved about them depends on rounding.
-/

namespace MTLSharedTypes

/-! ## Field types and struct declarations -/

/-- Field types that occur in `MTLSharedTypes.h`. `array t n` is the C
declarator `t name[n]`. -/
inductive CType where
  | simd_float3 : CType
  | float : CType
  | uint32_t : CType
  | array : CType → Nat → CType
  deriving DecidableEq, Repr

/-- One declared member of a struct. -/
structure Field where
  name : String
  type : CType
  deriving DecidableEq, Repr

/-- A struct declaration: its members in declaration order. -/
abbrev StructDecl := List Field

/-- The enum `MTLQuestShadingLightType`, whose underlying type is `uint32_t`. -/
inductive MTLQuestShadingLightType where
  | LightTypePoint
  | LightTypeSpot
  | LightTypeDir
  deriving DecidableEq, Repr

/-- Enumerator values as written in the header. -/
def MTLQuestShadingLightType.rawValue : MTLQuestShadingLightType → Nat
  | .LightTypePoint => 0
  | .LightTypeSpot => 1
  | .LightTypeDir => 2

/-- Header lines 23-26. -/
def MTLQuestShadingPointLight : StructDecl :=
  [ ⟨"position", .simd_float3⟩, ⟨"_pad0", .float⟩,
    ⟨"color", .simd_float3⟩, ⟨"intensity", .float⟩ ]

/-- Header lines 28-33. -/
def MTLQuestShadingSpotLight : StructDecl :=
  [ ⟨"position", .simd_float3⟩, ⟨"_pad0", .float⟩,
    ⟨"direction", .simd_float3⟩, ⟨"cosOuter", .float⟩,
    ⟨"color", .simd_float3⟩, ⟨"intensity", .float⟩,
    ⟨"cosInner", .float⟩, ⟨"_pad1", .array .float 3⟩ ]

/-- Header lines 35-38. -/
def MTLQuestShadingDirLight : StructDecl :=
  [ ⟨"direction", .simd_float3⟩, ⟨"_pad0", .float⟩,
    ⟨"color", .simd_float3⟩, ⟨"intensity", .float⟩ ]

/-- Header lines 40-45. -/
def MTLQuestShadingLightingCounts : StructDecl :=
  [ ⟨"pointCount", .uint32_t⟩, ⟨"spotCount", .uint32_t⟩,
    ⟨"dirCount", .uint32_t⟩, ⟨"_pad", .uint32_t⟩ ]

/-- The four records of the header, in declaration order. -/
def sharedStructs : List StructDecl :=
  [ MTLQuestShadingPointLight, MTLQuestShadingSpotLight,
    MTLQuestShadingDirLight, MTLQuestShadingLightingCounts ]

/-! ## Layout rules -/

/-- Size and alignment, in bytes, of the three base types of the header under
one compilation target. -/
structure LayoutRules where
  vec3Size : Nat
  vec3Align : Nat
  floatSize : Nat
  floatAlign : Nat
  uintSize : Nat
  uintAlign : Nat
  deriving DecidableEq, Repr

/-- Modelled from the spec: the base types come from the system headers
`<simd/simd.h>` and `<stdint.h>`, which are not part of the repository. On the
host `simd_float3` has size 16 and alignment 16; `float` and `uint32_t` have
size 4 and alignment 4. -/
def hostRules : LayoutRules :=
  { vec3Size := 16, vec3Align := 16, floatSize := 4, floatAlign := 4,
    uintSize := 4, uintAlign := 4 }

/-- Byte size of a field type: an array is its element size times its length. -/
def sizeOf (r : LayoutRules) : CType → Nat
  | .simd_float3 => r.vec3Size
  | .float => r.floatSize
  | .uint32_t => r.uintSize
  | .array t n => n * sizeOf r t

/-- Alignment of a field type: an array is aligned like its element. -/
def alignOf (r : LayoutRules) : CType → Nat
  | .simd_float3 => r.vec3Align
  | .float => r.floatAlign
  | .uint32_t => r.uintAlign
  | .array t _ => alignOf r t

/-- Least multiple of `a` that is at least `off`. -/
def alignUp (off a : Nat) : Nat := (off + a - 1) / a * a

/-- Offsets of the members when the first free byte is `off`: each member goes
to the next multiple of its alignment, the following one after its end. -/
def offsetsFrom (r : LayoutRules) : Nat → List Field → List Nat
  | _, [] => []
  | off, f :: fs =>
    let o := alignUp off (alignOf r f.type)
    o :: offsetsFrom r (o + sizeOf r f.type) fs

/-- First free byte after the last member, starting from free byte `off`. -/
def endFrom (r : LayoutRules) : Nat → List Field → Nat
  | off, [] => off
  | off, f :: fs => endFrom r (alignUp off (alignOf r f.type) + sizeOf r f.type) fs

/-- Offsets of the members of a struct. -/
def fieldOffsets (r : LayoutRules) (s : StructDecl) : List Nat := offsetsFrom r 0 s

/-- End offset of the last member of a struct. -/
def endOffset (r : LayoutRules) (s : StructDecl) : Nat := endFrom r 0 s

/-- Alignment of a struct: the largest member alignment. -/
def structAlign (r : LayoutRules) (s : StructDecl) : Nat :=
  s.foldl (fun a f => max a (alignOf r f.type)) 1

/-- Size of a struct: the end offset rounded up to the struct alignment. -/
def structSize (r : LayoutRules) (s : StructDecl) : Nat :=
  alignUp (endOffset r s) (structAlign r s)

/-- Sizes of the members, in declaration order. -/
def fieldSizes (r : LayoutRules) (s : StructDecl) : List Nat :=
  s.map (fun f => sizeOf r f.type)

/-- Member names, in declaration order. -/
def fieldNames (s : StructDecl) : List String := s.map Field.name

/-- Member types, in declaration order. -/
def fieldTypes (s : StructDecl) : List CType := s.map Field.type

/-- Each member paired with its offset. -/
def layout (r : LayoutRules) (s : StructDecl) : List (Field × Nat) :=
  s.zip (fieldOffsets r s)

/-- Bytes skipped in front of each member, starting from free byte `off`. -/
def gapsFrom (r : LayoutRules) : Nat → List Field → List Nat
  | _, [] => []
  | off, f :: fs =>
    let o := alignUp off (alignOf r f.type)
    (o - off) :: gapsFrom r (o + sizeOf r f.type) fs

/-- Implicit padding in front of each member of a struct. -/
def fieldGaps (r : LayoutRules) (s : StructDecl) : List Nat := gapsFrom r 0 s

/-- Implicit padding after the last member of a struct. -/
def tailPadding (r : LayoutRules) (s : StructDecl) : Nat :=
  structSize r s - endOffset r s

/-! ## The device side -/

/-- The two compilations of the header: `__METAL_VERSION__` is defined by the
shader compiler only. -/
inductive Target where
  | host
  | device
  deriving DecidableEq, Repr

/-- Expansion of the macro `HOSTDEVICE` (header lines 11-15): the address space
keyword `device` in the shader, nothing on the host. No record of the header
uses it. -/
def HOSTDEVICE : Target → List String
  | .device => ["device"]
  | .host => []

/-- Shading language types the members resolve to in the shader. -/
inductive MSLType where
  | float3 : MSLType
  | float : MSLType
  | uint : MSLType
  | array : MSLType → Nat → MSLType
  deriving DecidableEq, Repr

/-- Modelled from the spec: the shader-side `<simd/simd.h>` and `<stdint.h>` are
not part of the repository. There `simd_float3` names the vector type `float3`
and `uint32_t` names `uint`; `float` is the same keyword. -/
def deviceType : CType → MSLType
  | .simd_float3 => .float3
  | .float => .float
  | .uint32_t => .uint
  | .array t n => .array (deviceType t) n

/-- Modelled from the spec: byte size of a shading language type; `float3` has
size 16, `float` and `uint` have size 4, an array is its elements in a row. -/
def MSLType.size : MSLType → Nat
  | .float3 => 16
  | .float => 4
  | .uint => 4
  | .array t n => n * t.size

/-- Modelled from the spec: alignment of a shading language type; `float3` has
alignment 16, `float` and `uint` have alignment 4, an array that of its
element. -/
def MSLType.align : MSLType → Nat
  | .float3 => 16
  | .float => 4
  | .uint => 4
  | .array t _ => t.align

/-- A record under construction on the device side: the first free byte, the
largest member alignment met, the offsets and sizes given so far. -/
structure RecordBuilder where
  next : Nat
  align : Nat
  offsets : List Nat
  sizes : List Nat
  deriving DecidableEq, Repr

/-- The empty record. -/
def RecordBuilder.empty : RecordBuilder :=
  { next := 0, align := 1, offsets := [], sizes := [] }

/-- Bytes to skip from `off` to reach a multiple of `a`. -/
def padTo (off a : Nat) : Nat := (a - off % a) % a

/-- Append one member: skip to its alignment, record its offset and size. -/
def RecordBuilder.place (b : RecordBuilder) (t : MSLType) : RecordBuilder :=
  { next := b.next + padTo b.next t.align + t.size,
    align := max b.align t.align,
    offsets := b.offsets ++ [b.next + padTo b.next t.align],
    sizes := b.sizes ++ [t.size] }

/-- The record built from the members of a declaration as the shader sees them. -/
def deviceRecord (s : StructDecl) : RecordBuilder :=
  (s.map (fun f => deviceType f.type)).foldl RecordBuilder.place RecordBuilder.empty

/-- Offsets of the members in the shader. -/
def deviceFieldOffsets (s : StructDecl) : List Nat := (deviceRecord s).offsets

/-- Sizes of the members in the shader. -/
def deviceFieldSizes (s : StructDecl) : List Nat := (deviceRecord s).sizes

/-- Alignment of the record in the shader. -/
def deviceStructAlign (s : StructDecl) : Nat := (deviceRecord s).align

/-- Size of the record in the shader: the end of the last member, padded to
the alignment of the record. -/
def deviceStructSize (s : StructDecl) : Nat :=
  (deviceRecord s).next + padTo (deviceRecord s).next (deviceRecord s).align

end MTLSharedTypes

namespace Global

/-! ## The textured-quad shader pair (`Quad.h`) -/

/-- Two-component vector over the scalar type `α`. -/
structure float2 (α : Type) where
  x : α
  y : α
  deriving DecidableEq, Repr

/-- Four-component vector over the scalar type `α`. -/
structure float4 (α : Type) where
  x : α
  y : α
  z : α
  w : α
  deriving DecidableEq, Repr

/-- Four-by-four matrix, stored as its four columns like the shading language
`float4x4`. -/
structure float4x4 (α : Type) where
  c0 : float4 α
  c1 : float4 α
  c2 : float4 α
  c3 : float4 α
  deriving DecidableEq, Repr

/-- The vector constructor `float4(v, z, w)` taking a two-vector and two scalars. -/
def float4.ofXY {α : Type} (v : float2 α) (z w : α) : float4 α :=
  ⟨v.x, v.y, z, w⟩

/-- Componentwise sum of two vectors. -/
def float4.add {α : Type} [Add α] (a b : float4 α) : float4 α :=
  ⟨a.x + b.x, a.y + b.y, a.z + b.z, a.w + b.w⟩

/-- Vector `v` with every component multiplied by the scalar `k`. -/
def float4.scale {α : Type} [Mul α] (v : float4 α) (k : α) : float4 α :=
  ⟨v.x * k, v.y * k, v.z * k, v.w * k⟩

/-- The scalar `k` times the vector `v`, scalar on the left. -/
def float4.smul {α : Type} [Mul α] (k : α) (v : float4 α) : float4 α :=
  ⟨k * v.x, k * v.y, k * v.z, k * v.w⟩

/-- The product `m * v` of a matrix and a column vector: the columns of `m`
weighted by the components of `v` and summed from the first to the last. -/
def float4x4.mulVec {α : Type} [Add α] [Mul α] (m : float4x4 α) (v : float4 α) : float4 α :=
  (((m.c0.scale v.x).add (m.c1.scale v.y)).add (m.c2.scale v.z)).add (m.c3.scale v.w)

/-- Per-vertex input of the vertex stage. -/
structure QuadVertexIn (α : Type) where
  position : float2 α
  texCoord : float2 α
  deriving DecidableEq, Repr

/-- Output of the vertex stage and interpolated input of the fragment stage. -/
structure QuadVertexOut (α : Type) where
  position : float4 α
  texCoord : float2 α
  deriving DecidableEq, Repr

/-- A two-dimensional texture with texel component type `τ`: all the shader uses
of it is its method `sample(s, coord)`, for samplers of type `σ`. -/
structure texture2d (σ α τ : Type) where
  sample : σ → float2 α → float4 τ

/-- The vertex function `quadVertex` (lines 18-26). -/
def quadVertex {α : Type} [Zero α] [One α] [Add α] [Mul α]
    (vin : QuadVertexIn α) (projectionMatrix : float4x4 α) : QuadVertexOut α :=
  { position := projectionMatrix.mulVec (float4.ofXY vin.position 0 1),
    texCoord := vin.texCoord }

/-- The fragment function `quadFragment` (lines 28-34). -/
def quadFragment {σ α τ : Type}
    (vin : QuadVertexOut α) (tex : texture2d σ α τ) (s : σ) : float4 τ :=
  tex.sample s vin.texCoord

end Global

/-! ## Theorems about the shared records -/

namespace MTLSharedTypes

/-- C3: for each of the four records, the offset of every member, the size of
every member, the alignment and the total size computed on the host (C rule,
host type sizes) equal those computed on the device (member types resolved to
shading language types, shading language type table, record builder). -/
theorem host_device_layout_agree (s : StructDecl) (hs : s ∈ sharedStructs) :
    fieldOffsets hostRules s = deviceFieldOffsets s ∧
    fieldSizes hostRules s = deviceFieldSizes s ∧
    structAlign hostRules s = deviceStructAlign s ∧
    structSize hostRules s = deviceStructSize s := by
  revert s
  decide

/-- Witness for C3 at the spot light record. -/
theorem host_device_layout_agree_witness :
    MTLQuestShadingSpotLight ∈ sharedStructs ∧
    fieldOffsets hostRules MTLQuestShadingSpotLight =
      deviceFieldOffsets MTLQuestShadingSpotLight ∧
    structSize hostRules MTLQuestShadingSpotLight =
      deviceStructSize MTLQuestShadingSpotLight :=
  ⟨by decide,
   (host_device_layout_agree MTLQuestShadingSpotLight (by decide)).1,
   (host_device_layout_agree MTLQuestShadingSpotLight (by decide)).2.2.2⟩

/-- C4: for each of the four records laid out by the C rule, the total size is
a multiple of 16 and every `simd_float3` member starts at a multiple of 16. -/
theorem sizes_and_vec3_offsets_aligned (s : StructDecl) (hs : s ∈ sharedStructs) :
    structSize hostRules s % 16 = 0 ∧
    ∀ p ∈ layout hostRules s, p.1.type = CType.simd_float3 → p.2 % 16 = 0 := by
  revert s
  decide

/-- Witness for C4 at the point light record, with its member `color`. -/
theorem sizes_and_vec3_offsets_aligned_witness :
    MTLQuestShadingPointLight ∈ sharedStructs ∧
    ((⟨"color", CType.simd_float3⟩, 32) : Field × Nat) ∈
      layout hostRules MTLQuestShadingPointLight ∧
    structSize hostRules MTLQuestShadingPointLight % 16 = 0 ∧
    32 % 16 = 0 :=
  ⟨by decide, by decide,
   (sizes_and_vec3_offsets_aligned MTLQuestShadingPointLight (by decide)).1,
   (sizes_and_vec3_offsets_aligned MTLQuestShadingPointLight (by decide)).2
     (⟨"color", CType.simd_float3⟩, 32) (by decide) rfl⟩

/-- C5: what the layout rule gives for the point light and the directional
light records. The vector member fills bytes 0 to 15 by itself, `_pad0` sits at
byte 16, twelve bytes are skipped in front of `color`, which starts at byte 32,
`intensity` is at byte 48 and the record is 64 bytes long: a vector with its
float companion takes 32 bytes, not 16. -/
theorem pointLight_dirLight_actual_layout :
    fieldSizes hostRules MTLQuestShadingPointLight = [16, 4, 16, 4] ∧
    fieldOffsets hostRules MTLQuestShadingPointLight = [0, 16, 32, 48] ∧
    fieldGaps hostRules MTLQuestShadingPointLight = [0, 0, 12, 0] ∧
    endOffset hostRules MTLQuestShadingPointLight = 52 ∧
    structSize hostRules MTLQuestShadingPointLight = 64 ∧
    fieldSizes hostRules MTLQuestShadingDirLight = [16, 4, 16, 4] ∧
    fieldOffsets hostRules MTLQuestShadingDirLight = [0, 16, 32, 48] ∧
    fieldGaps hostRules MTLQuestShadingDirLight = [0, 0, 12, 0] ∧
    endOffset hostRules MTLQuestShadingDirLight = 52 ∧
    structSize hostRules MTLQuestShadingDirLight = 64 := by
  decide

/-- C6: the counts record has exactly the four `uint32_t` members `pointCount`,
`spotCount`, `dirCount`, `_pad`, at offsets 0, 4, 8, 12; its size is 16 and
there is no implicit padding in front of any member or after the last one. -/
theorem lightingCounts_layout :
    fieldNames MTLQuestShadingLightingCounts =
      ["pointCount", "spotCount", "dirCount", "_pad"] ∧
    fieldTypes MTLQuestShadingLightingCounts =
      [CType.uint32_t, CType.uint32_t, CType.uint32_t, CType.uint32_t] ∧
    fieldSizes hostRules MTLQuestShadingLightingCounts = [4, 4, 4, 4] ∧
    fieldOffsets hostRules MTLQuestShadingLightingCounts = [0, 4, 8, 12] ∧
    structSize hostRules MTLQuestShadingLightingCounts = 16 ∧
    fieldGaps hostRules MTLQuestShadingLightingCounts = [0, 0, 0, 0] ∧
    tailPadding hostRules MTLQuestShadingLightingCounts = 0 := by
  decide

/-- C7: what the layout rule gives for the spot light record. The members lie
in declaration order without overlap, but twelve bytes are skipped in front of
`direction` and in front of `color`, and twelve more after `_pad1`: the
declared sizes add up to 76, `_pad1` ends at byte 100 and the record is 112
bytes long. -/
theorem spotLight_actual_layout :
    fieldNames MTLQuestShadingSpotLight =
      ["position", "_pad0", "direction", "cosOuter", "color", "intensity",
       "cosInner", "_pad1"] ∧
    fieldSizes hostRules MTLQuestShadingSpotLight = [16, 4, 16, 4, 16, 4, 4, 12] ∧
    fieldOffsets hostRules MTLQuestShadingSpotLight = [0, 16, 32, 48, 64, 80, 84, 88] ∧
    fieldGaps hostRules MTLQuestShadingSpotLight = [0, 0, 12, 0, 12, 0, 0, 0] ∧
    (fieldSizes hostRules MTLQuestShadingSpotLight).sum = 76 ∧
    endOffset hostRules MTLQuestShadingSpotLight = 100 ∧
    structSize hostRules MTLQuestShadingSpotLight = 112 ∧
    tailPadding hostRules MTLQuestShadingSpotLight = 12 := by
  decide

/-- C10: under any layout rules the point light and the directional light
records have the same size, the same number of members and, index by index,
the same member type, size and offset; their member names differ in the first
place only. -/
theorem pointLight_dirLight_layout_identical (r : LayoutRules) :
    structSize r MTLQuestShadingPointLight = structSize r MTLQuestShadingDirLight ∧
    structAlign r MTLQuestShadingPointLight = structAlign r MTLQuestShadingDirLight ∧
    MTLQuestShadingPointLight.length = MTLQuestShadingDirLight.length ∧
    fieldTypes MTLQuestShadingPointLight = fieldTypes MTLQuestShadingDirLight ∧
    fieldSizes r MTLQuestShadingPointLight = fieldSizes r MTLQuestShadingDirLight ∧
    fieldOffsets r MTLQuestShadingPointLight = fieldOffsets r MTLQuestShadingDirLight ∧
    (fieldNames MTLQuestShadingPointLight).head? = some "position" ∧
    (fieldNames MTLQuestShadingDirLight).head? = some "direction" ∧
    (fieldNames MTLQuestShadingPointLight).head? ≠
      (fieldNames MTLQuestShadingDirLight).head? ∧
    (fieldNames MTLQuestShadingPointLight).tail =
      (fieldNames MTLQuestShadingDirLight).tail :=
  ⟨rfl, rfl, rfl, rfl, rfl, rfl, rfl, rfl, by decide, rfl⟩

end MTLSharedTypes

/-! ## Theorems about the shader pair -/

namespace Global

/-- C1: for every projection matrix `M`, position `p` and texture coordinate
`t`, `quadVertex` returns the position `M * (p.x, p.y, 0, 1)` and the texture
coordinate `t`. The scalar type is arbitrary. -/
theorem quadVertex_spec {α : Type} [Zero α] [One α] [Add α] [Mul α]
    (M : float4x4 α) (p t : float2 α) :
    (quadVertex ⟨p, t⟩ M).position = M.mulVec ⟨p.x, p.y, 0, 1⟩ ∧
    (quadVertex ⟨p, t⟩ M).texCoord = t :=
  ⟨rfl, rfl⟩

/-- C2: for every texture, sampler and interpolated input, `quadFragment`
returns exactly the sample of the texture at the input texture coordinate. -/
theorem quadFragment_spec {σ α τ : Type}
    (tex : texture2d σ α τ) (s : σ) (vin : QuadVertexOut α) :
    quadFragment vin tex s = tex.sample s vin.texCoord :=
  rfl

/-- C8: over a commutative ring (the rationals and the reals among them) the
position returned by `quadVertex` is `p.x * c0 + p.y * c1 + c3`, and two
projection matrices that agree on the columns `c0`, `c1`, `c3` give the same
output for every input. -/
theorem quadVertex_ignores_third_column {α : Type} [CommRing α]
    (M N : float4x4 α) (vin : QuadVertexIn α)
    (h0 : M.c0 = N.c0) (h1 : M.c1 = N.c1) (h3 : M.c3 = N.c3) :
    (quadVertex vin M).position =
      ((float4.smul vin.position.x M.c0).add (float4.smul vin.position.y M.c1)).add M.c3 ∧
    quadVertex vin M = quadVertex vin N := by
  have key : ∀ K : float4x4 α, (quadVertex vin K).position =
      ((float4.smul vin.position.x K.c0).add (float4.smul vin.position.y K.c1)).add K.c3 := by
    intro K
    simp [quadVertex, float4x4.mulVec, float4.ofXY, float4.add, float4.scale, float4.smul,
      mul_comm]
  refine ⟨key M, ?_⟩
  have hp : (quadVertex vin M).position = (quadVertex vin N).position := by
    rw [key M, key N, h0, h1, h3]
  have ht : (quadVertex vin M).texCoord = (quadVertex vin N).texCoord := rfl
  cases hM : quadVertex vin M with
  | mk pM tM =>
    cases hN : quadVertex vin N with
    | mk pN tN =>
      rw [hM, hN] at hp ht
      simp only at hp ht
      rw [hp, ht]

/-- Witness for C8 over the rationals: two matrices whose third columns differ. -/
theorem quadVertex_ignores_third_column_witness :
    (⟨⟨1, 0, 0, 0⟩, ⟨0, 2, 0, 0⟩, ⟨5, 6, 7, 8⟩, ⟨3, 4, 0, 1⟩⟩ : float4x4 ℚ).c2 ≠
      (⟨⟨1, 0, 0, 0⟩, ⟨0, 2, 0, 0⟩, ⟨0, 0, 1, 0⟩, ⟨3, 4, 0, 1⟩⟩ : float4x4 ℚ).c2 ∧
    quadVertex (⟨⟨10, 20⟩, ⟨1, 1⟩⟩ : QuadVertexIn ℚ)
        ⟨⟨1, 0, 0, 0⟩, ⟨0, 2, 0, 0⟩, ⟨5, 6, 7, 8⟩, ⟨3, 4, 0, 1⟩⟩ =
      quadVertex (⟨⟨10, 20⟩, ⟨1, 1⟩⟩ : QuadVertexIn ℚ)
        ⟨⟨1, 0, 0, 0⟩, ⟨0, 2, 0, 0⟩, ⟨0, 0, 1, 0⟩, ⟨3, 4, 0, 1⟩⟩ :=
  ⟨by simp,
   (quadVertex_ignores_third_column
      (⟨⟨1, 0, 0, 0⟩, ⟨0, 2, 0, 0⟩, ⟨5, 6, 7, 8⟩, ⟨3, 4, 0, 1⟩⟩ : float4x4 ℚ)
      ⟨⟨1, 0, 0, 0⟩, ⟨0, 2, 0, 0⟩, ⟨0, 0, 1, 0⟩, ⟨3, 4, 0, 1⟩⟩
      ⟨⟨10, 20⟩, ⟨1, 1⟩⟩ rfl rfl rfl).2⟩

/-- C9: the texture coordinate returned by `quadVertex` depends only on the
input texture coordinate (not on the matrix, not on the input position), and
the colour returned by `quadFragment` depends only on the texture, the sampler
and the input texture coordinate (not on the input position). -/
theorem shader_noninterference {σ α τ : Type} [Zero α] [One α] [Add α] [Mul α]
    (M N : float4x4 α) (a b : QuadVertexIn α)
    (tex : texture2d σ α τ) (s : σ) (u v : QuadVertexOut α)
    (hab : a.texCoord = b.texCoord) (huv : u.texCoord = v.texCoord) :
    (quadVertex a M).texCoord = (quadVertex b N).texCoord ∧
    quadFragment u tex s = quadFragment v tex s := by
  refine ⟨?_, ?_⟩
  · show a.texCoord = b.texCoord
    exact hab
  · show tex.sample s u.texCoord = tex.sample s v.texCoord
    rw [huv]

/-- Witness for C9 over the integers: different matrices, different positions,
equal texture coordinates. -/
theorem shader_noninterference_witness :
    (quadVertex (⟨⟨1, 2⟩, ⟨7, 9⟩⟩ : QuadVertexIn ℤ)
        ⟨⟨1, 0, 0, 0⟩, ⟨0, 1, 0, 0⟩, ⟨0, 0, 1, 0⟩, ⟨0, 0, 0, 1⟩⟩).texCoord =
      (quadVertex (⟨⟨-3, 5⟩, ⟨7, 9⟩⟩ : QuadVertexIn ℤ)
        ⟨⟨2, 0, 0, 0⟩, ⟨0, 3, 0, 0⟩, ⟨0, 0, 4, 0⟩, ⟨1, 1, 1, 1⟩⟩).texCoord ∧
    quadFragment (⟨⟨1, 2, 0, 1⟩, ⟨7, 9⟩⟩ : QuadVertexOut ℤ)
        (⟨fun k c => ⟨c.x + k, c.y, 0, 1⟩⟩ : texture2d ℤ ℤ ℤ) 4 =
      quadFragment (⟨⟨-8, 6, 0, 1⟩, ⟨7, 9⟩⟩ : QuadVertexOut ℤ)
        (⟨fun k c => ⟨c.x + k, c.y, 0, 1⟩⟩ : texture2d ℤ ℤ ℤ) 4 :=
  shader_noninterference
    (⟨⟨1, 0, 0, 0⟩, ⟨0, 1, 0, 0⟩, ⟨0, 0, 1, 0⟩, ⟨0, 0, 0, 1⟩⟩ : float4x4 ℤ)
    ⟨⟨2, 0, 0, 0⟩, ⟨0, 3, 0, 0⟩, ⟨0, 0, 4, 0⟩, ⟨1, 1, 1, 1⟩⟩
    ⟨⟨1, 2⟩, ⟨7, 9⟩⟩ ⟨⟨-3, 5⟩, ⟨7, 9⟩⟩
    (⟨fun k c => ⟨c.x + k, c.y, 0, 1⟩⟩ : texture2d ℤ ℤ ℤ) 4
    ⟨⟨1, 2, 0, 1⟩, ⟨7, 9⟩⟩ ⟨⟨-8, 6, 0, 1⟩, ⟨7, 9⟩⟩ rfl rfl

end Global
